import Mathlib

/-!
Verification development for the ggsel-push-bot repository (src/bot.py).

The Python module is shallowly embedded below.  Dictionaries produced by the
upstream JSON API are modelled as structures whose fields are `Option`-typed
(`none` = key absent or value `null`); Python truthiness (`x or y`, `if not x`)
is modelled explicitly.  Network calls are modelled by passing the would-be
responses as explicit arguments (a function from request parameters to the
returned data), and the module-level mutable globals (`API_TOKEN`,
`API_TOKEN_EXPIRES_AT`, `bot_data`) are modelled by explicit state passing.
Timestamps (Python floats from `datetime.timestamp()` / `time.time()`) are
modelled as rationals; the standard library parser `datetime.fromisoformat`
composed with `.timestamp()` (plus the `float(...)` fallback) is not
repository code and is passed in as an abstract parse function
`String → Option ℚ`, with `none` meaning the parse raised (Python then uses
`float("-inf")`, modelled as the extra `none` element below the rationals).
-/

/-- A Python value as it occurs in the composite-key and formatting chains of
bot.py: `None`, an int, or a string.  `truthy` is Python truthiness and
`render` is the f-string rendering `f"{v}"`. -/
inductive PyV where
  | vnone : PyV
  | vint : Int → PyV
  | vstr : String → PyV
deriving DecidableEq

def PyV.truthy : PyV → Bool
  | .vnone => false
  | .vint n => n != 0
  | .vstr s => s != ""

def PyV.render : PyV → String
  | .vnone => "None"
  | .vint n => toString n
  | .vstr s => s

/-- Python `a or b`. -/
def pyOrV (a b : PyV) : PyV := if a.truthy then a else b

def vOfInt : Option Int → PyV
  | none => .vnone
  | some n => .vint n

def vOfStr : Option String → PyV
  | none => .vnone
  | some s => .vstr s

/-- Truthiness of an optional string (Python: absent/None and `""` are falsy). -/
def strTruthy : Option String → Bool
  | none => false
  | some s => s != ""

/-- Python `a or b` on optional strings. -/
def pyOrStr (a b : Option String) : Option String :=
  if strTruthy a then a else b

/-- Python `a or d` where `d` is a (truthy) string default. -/
def pyOrStrD (a : Option String) (d : String) : String :=
  match a with
  | none => d
  | some s => if s = "" then d else s

/-- MessageRecord: one element of the list returned by the debates endpoint
(`api_list_messages`).  Fields are exactly the keys bot.py reads. -/
structure Msg where
  id : Option Int := none
  buyer : Option Int := none
  deleted : Option Int := none
  message : Option String := none
  date_written : Option String := none
  created_at : Option String := none
deriving DecidableEq

/-- ConversationSummary: one element of `items` from the chats endpoint
(`api_list_chats`).  Fields are exactly the keys bot.py reads. -/
structure ChatItem where
  id_i : Option Int := none
  email : Option String := none
  product : Option Int := none
  cnt_new : Option Int := none
  last_message : Option String := none
deriving DecidableEq

/-- One element of the list built by `get_unread`:
`{"chat": chat, "message": last_buyer_msg}`. -/
structure Entry where
  chat : ChatItem
  message : Option Msg
deriving DecidableEq

/-- The inner `_to_ts` of `_select_last_unread_buyer_message`.
`parse` models `datetime.fromisoformat(s.replace("Z", "+00:00")).timestamp()`
with the `float(s)` fallback; `none` models both exceptions failing, where the
Python code produces `float("-inf")` (the bottom element `none` here). -/
def _to_ts (parse : String → Option ℚ) (s : Option String) : Option ℚ :=
  match s with
  | none => none
  | some str => if str = "" then none else parse str

/-- Python `ts > latest_ts` on floats-with-minus-infinity
(`none` = `float("-inf")`): minus infinity is never strictly greater. -/
def tsGt : Option ℚ → Option ℚ → Bool
  | none, _ => false
  | some _, none => true
  | some a, some b => decide (b < a)

/-- The timestamp source `msg.get("date_written") or msg.get("created_at") or None`. -/
def msg_ts_src (m : Msg) : Option String :=
  pyOrStr (pyOrStr m.date_written m.created_at) none

/-- Loop body of `_select_last_unread_buyer_message`: accumulator is
`(latest_msg, latest_ts)`, starting from `(None, float("-inf"))`. -/
def sel_step (parse : String → Option ℚ) (acc : Option Msg × Option ℚ) (msg : Msg) :
    Option Msg × Option ℚ :=
  if ¬(msg.buyer.getD 0 = 1) ∨ (msg.deleted.getD 0 = 1) then acc
  else if tsGt (_to_ts parse (msg_ts_src msg)) acc.2 then
    (some msg, _to_ts parse (msg_ts_src msg))
  else acc

/-- Function `_select_last_unread_buyer_message(messages)` from bot.py. -/
def _select_last_unread_buyer_message (parse : String → Option ℚ) (messages : List Msg) :
    Option Msg :=
  if messages.isEmpty then none
  else (messages.foldl (sel_step parse) (none, none)).1

/-- The message attached to a conversation by `get_unread` for one chat item.
`fetch cid count` models `api_list_messages(conversation_id=cid, count=count)`;
`none` models the call raising (the `except` branches set `msgs = []`).  A chat
with no `id_i` makes `int(chat_id)` raise inside the same `try`, hence also
`msgs = []`. -/
def unread_entry_message (parse : String → Option ℚ) (fetch : Int → Nat → Option (List Msg))
    (chat : ChatItem) : Option Msg :=
  let msgs1 : List Msg :=
    match chat.id_i with
    | none => []
    | some cid => (fetch cid 1).getD []
  let msgs : List Msg :=
    if msgs1.isEmpty ∨ (_select_last_unread_buyer_message parse msgs1).isNone then
      match chat.id_i with
      | none => []
      | some cid => (fetch cid 100).getD []
    else msgs1
  match _select_last_unread_buyer_message parse msgs with
  | some m => some m
  | none => msgs.head?

/-- Function `get_unread()` from bot.py, with the already-fetched unread-filtered chat
list and the message fetches passed explicitly. -/
def get_unread (parse : String → Option ℚ) (fetch : Int → Nat → Option (List Msg))
    (chats : List ChatItem) : List Entry :=
  chats.map (fun chat => { chat := chat, message := unread_entry_message parse fetch chat })

/-- Local `email` of `format_alert`: `chat.get("email") or "—"`. -/
def alert_email (chat : ChatItem) : String := pyOrStrD chat.email "—"

/-- Local `conversation_id` of `format_alert`: `chat.get("id_i") or "—"`, rendered. -/
def alert_conversation_id (chat : ChatItem) : String :=
  (pyOrV (vOfInt chat.id_i) (.vstr "—")).render

/-- Local `product_label` of `format_alert`:
`f"product #{pid}" if pid is not None else "—"`. -/
def alert_product_label (chat : ChatItem) : String :=
  match chat.product with
  | some p => "product #" ++ toString p
  | none => "—"

/-- The fallback text `f"Новых сообщений: {chat.get('cnt_new') or '—'}"`. -/
def alert_unread_fallback (chat : ChatItem) : String :=
  "Новых сообщений: " ++ (pyOrV (vOfInt chat.cnt_new) (.vstr "—")).render

/-- Local `text` of `format_alert`:
`(msg.get("message") if isinstance(msg, dict) else None) or fallback`. -/
def alert_text (e : Entry) : String :=
  let t : Option String := match e.message with
    | some m => m.message
    | none => none
  match t with
  | none => alert_unread_fallback e.chat
  | some s => if s = "" then alert_unread_fallback e.chat else s

/-- Local `dt` of `format_alert`:
`(msg.get("date_written") if isinstance(msg, dict) else None)
 or (chat.get("last_message") or "—")`. -/
def alert_dt (e : Entry) : String :=
  let d : Option String := match e.message with
    | some m => m.date_written
    | none => none
  match d with
  | none => pyOrStrD e.chat.last_message "—"
  | some s => if s = "" then pyOrStrD e.chat.last_message "—" else s

/-- Function `format_alert(chat_and_msg)` from bot.py. -/
def format_alert (e : Entry) : String :=
  "💬 Новое сообщение от <b>" ++ alert_email e.chat ++ "</b>\n" ++
  "🗂️ Диалог ID #" ++ alert_conversation_id e.chat ++ " — <i>" ++
    alert_product_label e.chat ++ "</i>\n" ++
  "🕒 " ++ alert_dt e ++ "\n" ++
  "💭 <code>" ++ alert_text e ++ "</code>"

/-- The synthetic alert the spec describes for a conversation with no usable
message: built from the conversation summary only (unread counter and
last-message snapshot). -/
def synthetic_alert (chat : ChatItem) : String :=
  "💬 Новое сообщение от <b>" ++ alert_email chat ++ "</b>\n" ++
  "🗂️ Диалог ID #" ++ alert_conversation_id chat ++ " — <i>" ++
    alert_product_label chat ++ "</i>\n" ++
  "🕒 " ++ pyOrStrD chat.last_message "—" ++ "\n" ++
  "💭 <code>" ++ alert_unread_fallback chat ++ "</code>"

/-- Product stub inside a sale record: `sale.get("product")`. -/
structure ProductStub where
  name : Option String := none
deriving DecidableEq

/-- One element of `sales` from the seller-last-sales endpoint
(`api_last_sales`).  Fields are exactly the keys bot.py reads. -/
structure SaleStub where
  invoice_id : Option Int := none
  product : Option ProductStub := none
  date : Option String := none
deriving DecidableEq

/-- Record `info.get("buyer_info")` inside a purchase-info record. -/
structure BuyerInfo where
  email : Option String := none
deriving DecidableEq

/-- The `content` record from the purchase-info endpoint
(`api_purchase_info`).  Fields are the keys bot.py reads, plus the upstream
`status` field, which the code never reads (needed only to state the
payment-confirmation claim). -/
structure PurchaseInfo where
  date_pay : Option String := none
  buyer_info : Option BuyerInfo := none
  amount : Option Int := none
  currency_type : Option String := none
  name : Option String := none
  purchase_date : Option String := none
  status : Option String := none
deriving DecidableEq

/-- The order dictionary appended by `get_recent_orders`, generalised so that
the formatting functions can also be applied to dictionaries with absent keys
(`id` is read by `_auto_orders_once` and `format_order_alert` but never
written by `get_recent_orders`). -/
structure OrderD where
  id : Option Int := none
  number : Option Int := none
  offer_title : Option String := none
  buyer_email : Option String := none
  amount : Option String := none
  status : Option String := none
  created_at : Option String := none
deriving DecidableEq

/-- The order dictionary built by the loop body of `get_recent_orders` for a
paid sale with invoice id `iid` and purchase info `info`. -/
def mk_paid_order (sale : SaleStub) (info : PurchaseInfo) (iid : Int) : OrderD :=
  let buyer_email := pyOrStrD (match info.buyer_info with
    | some b => b.email
    | none => none) "—"
  let currency := pyOrStrD info.currency_type ""
  let amount_str := match info.amount with
    | some a => toString a ++ " " ++ currency
    | none => "—"
  let item_name := pyOrStrD info.name (pyOrStrD (match sale.product with
    | some p => p.name
    | none => none) "—")
  let created := pyOrStrD info.purchase_date (pyOrStrD sale.date "—")
  { id := none, number := some iid, offer_title := some item_name,
    buyer_email := some buyer_email, amount := some amount_str,
    status := some "paid", created_at := some created }

/-- One iteration of the `get_recent_orders` loop: `none` when the sale is
skipped (missing `invoice_id`, or `bool(info.get("date_pay"))` is false). -/
def sale_paid_order (info : Int → PurchaseInfo) (sale : SaleStub) : Option OrderD :=
  match sale.invoice_id with
  | none => none
  | some iid =>
    if strTruthy (info iid).date_pay then some (mk_paid_order sale (info iid) iid)
    else none

/-- Function `get_recent_orders()` from bot.py, with the fetched sales list and the
purchase-info lookup passed explicitly. -/
def get_recent_orders (info : Int → PurchaseInfo) (sales : List SaleStub) : List OrderD :=
  sales.filterMap (sale_paid_order info)

/-- Local `title` of `format_order_alert`: `order.get("offer_title", "—")`. -/
def order_alert_title (o : OrderD) : String := o.offer_title.getD "—"

/-- Local `email` of `format_order_alert`: `order.get("buyer_email", "—")`. -/
def order_alert_email (o : OrderD) : String := o.buyer_email.getD "—"

/-- Local `amount` of `format_order_alert`, rendered: `order.get("amount", 0)`
defaults to the integer `0`, not to a dash. -/
def order_alert_amount (o : OrderD) : String := o.amount.getD "0"

/-- Local `status` of `format_order_alert`: `order.get("status", "—")`. -/
def order_alert_status (o : OrderD) : String := o.status.getD "—"

/-- Local `created_at` of `format_order_alert`: `order.get("created_at", "—")`. -/
def order_alert_created (o : OrderD) : String := o.created_at.getD "—"

/-- Local `number` of `format_order_alert`:
`order.get("number") or order.get("id", "—")`, rendered. -/
def order_alert_number (o : OrderD) : String :=
  (pyOrV (vOfInt o.number) (match o.id with
    | some n => .vint n
    | none => .vstr "—")).render

/-- Function `format_order_alert(order)` from bot.py. -/
def format_order_alert (o : OrderD) : String :=
  "🧾 Новый заказ №<b>" ++ order_alert_number o ++ "</b>\n" ++
  "📦 Товар: <i>" ++ order_alert_title o ++ "</i>\n" ++
  "📧 Покупатель: <code>" ++ order_alert_email o ++ "</code>\n" ++
  "💰 Сумма: <b>" ++ order_alert_amount o ++ "</b>\n" ++
  "📌 Статус: <b>" ++ order_alert_status o ++ "</b>\n" ++
  "🕒 " ++ order_alert_created o

/-- The composite-key `msg_id` chain of `_auto_check_once`:
`(msg.get("id") if isinstance(msg, dict) else None)
 or (msg.get("date_written") if isinstance(msg, dict) else None)
 or chat_item.get("last_message") or chat_item.get("cnt_new")`. -/
def entry_msg_id (e : Entry) : PyV :=
  pyOrV (match e.message with
      | some m => vOfInt m.id
      | none => .vnone)
    (pyOrV (match e.message with
        | some m => vOfStr m.date_written
        | none => .vnone)
      (pyOrV (vOfStr e.chat.last_message) (vOfInt e.chat.cnt_new)))

/-- The composite key `f"{conversation_id}:{msg_id}"` of `_auto_check_once`. -/
def entry_key (e : Entry) : String :=
  (vOfInt e.chat.id_i).render ++ ":" ++ (entry_msg_id e).render

/-- Loop body of `_auto_check_once`: accumulator is `(alerts, seen_set)`. -/
def check_step (acc : List String × Finset String) (e : Entry) :
    List String × Finset String :=
  if format_alert e = "" then acc
  else if entry_key e ∈ acc.2 then acc
  else (acc.1 ++ [format_alert e], insert (entry_key e) acc.2)

/-- The deduplication core of `_auto_check_once(app, chat_id)`: given the
session seen-set and the freshly fetched `get_unread()` result, returns the
alerts that are sent and the updated seen-set. -/
def _auto_check_once (seen : Finset String) (entries : List Entry) :
    List String × Finset String :=
  entries.foldl check_step ([], seen)

/-- Instrumented variant of the `_auto_check_once` loop that records, instead
of the alert text, the composite key of each emitted alert. -/
def check_key_step (acc : List String × Finset String) (e : Entry) :
    List String × Finset String :=
  if format_alert e = "" then acc
  else if entry_key e ∈ acc.2 then acc
  else (acc.1 ++ [entry_key e], insert (entry_key e) acc.2)

/-- The composite keys for which `_auto_check_once` emits an alert. -/
def auto_check_emitted_keys (seen : Finset String) (entries : List Entry) : List String :=
  (entries.foldl check_key_step ([], seen)).1

/-- The dedup key of `_auto_orders_once` and `manual_check_orders`:
`order.get("id") or order.get("number")` (a Python int or `None`). -/
def order_key (o : OrderD) : Option Int :=
  match o.id with
  | some n => if n = 0 then o.number else some n
  | none => o.number

/-- Loop body of `_auto_orders_once` (also of `manual_check_orders`). -/
def orders_step (acc : List String × Finset (Option Int)) (o : OrderD) :
    List String × Finset (Option Int) :=
  if order_key o ∈ acc.2 then acc
  else (acc.1 ++ [format_order_alert o], insert (order_key o) acc.2)

/-- The deduplication core of `_auto_orders_once(app, chat_id)`: given the
session order seen-set and the fetched `get_recent_orders()` result, returns
the alerts that are sent and the updated seen-set (early return on an empty
order list). -/
def _auto_orders_once (seen : Finset (Option Int)) (orders : List OrderD) :
    List String × Finset (Option Int) :=
  if orders.isEmpty then ([], seen)
  else orders.foldl orders_step ([], seen)

/-- Instrumented variant of the `_auto_orders_once` loop recording emitted keys. -/
def orders_key_step (acc : List (Option Int) × Finset (Option Int)) (o : OrderD) :
    List (Option Int) × Finset (Option Int) :=
  if order_key o ∈ acc.2 then acc
  else (acc.1 ++ [order_key o], insert (order_key o) acc.2)

/-- The order keys for which `_auto_orders_once` emits an alert. -/
def auto_orders_emitted_keys (seen : Finset (Option Int)) (orders : List OrderD) :
    List (Option Int) :=
  if orders.isEmpty then []
  else (orders.foldl orders_key_step ([], seen)).1

/-- The per-process bot state `context.application.bot_data`: the two
seen-maps, keyed by chat id (`setdefault(chat_id, set())` is modelled by
total functions defaulting to the empty set). -/
structure BotData where
  seen_keys : Int → Finset String
  seen_orders : Int → Finset (Option Int)

/-- Loop body of `manual_check`: `if alert: messages.append(alert)`. -/
def manual_alert_step (ms : List String) (e : Entry) : List String :=
  if format_alert e = "" then ms else ms ++ [format_alert e]

/-- Handler `manual_check(update, context)` from bot.py: the replied alert texts and
the bot state after the call.  The handler reads `get_unread()` (passed here
as its result `entries`) and never touches `bot_data`. -/
def manual_check (st : BotData) (entries : List Entry) : List String × BotData :=
  (entries.foldl manual_alert_step [], st)

/-- Handler `manual_check_orders(update, context)` from bot.py: dedups the fetched
orders against `bot_data["seen_orders"][chat_id]` and updates that set. -/
def manual_check_orders (st : BotData) (chat_id : Int) (orders : List OrderD) :
    List String × BotData :=
  if orders.isEmpty then ([], st)
  else
    ((orders.foldl orders_step ([], st.seen_orders chat_id)).1,
      { st with seen_orders := fun c =>
          if c = chat_id then (orders.foldl orders_step ([], st.seen_orders chat_id)).2
          else st.seen_orders c })

/-- Function `_auto_orders_once` lifted to the bot state, as the scheduled order check
runs it: it reads and writes `bot_data["seen_orders"][chat_id]`. -/
def auto_orders_once_state (st : BotData) (chat_id : Int) (orders : List OrderD) :
    List String × BotData :=
  ((_auto_orders_once (st.seen_orders chat_id) orders).1,
    { st with seen_orders := fun c =>
        if c = chat_id then (_auto_orders_once (st.seen_orders chat_id) orders).2
        else st.seen_orders c })

/-- The module-level auth globals `API_TOKEN` and `API_TOKEN_EXPIRES_AT`. -/
structure AuthSt where
  token : Option String
  expiresAt : ℚ
deriving DecidableEq

/-- The JSON body of an `/apilogin` response (keys bot.py reads). -/
structure LoginBody where
  token : Option String := none
  desc : Option String := none
  retdesc : Option String := none
  valid_thru : Option String := none
deriving DecidableEq

/-- An `/apilogin` HTTP response: status, whether the Content-Type starts
with application/json, the parsed body, and the raw text. -/
structure LoginResp where
  status : Nat
  ctJson : Bool
  body : LoginBody
  text : String := ""
deriving DecidableEq

/-- Observable outcome of `_ensure_api_token`: whether a login request was
sent over the network, the auth globals after the call, and the raised
error message (`none` = returned normally). -/
structure EnsureOut where
  login_attempted : Bool
  st : AuthSt
  err : Option String
deriving DecidableEq

/-- Python whitespace for `str.strip()`. -/
def py_is_space (c : Char) : Bool :=
  c == ' ' || c == '\t' || c == '\n' || c == '\r'

/-- Python `str.strip()`: drop leading and trailing whitespace. -/
def py_strip (s : String) : String :=
  String.mk (((s.data.dropWhile py_is_space).reverse.dropWhile py_is_space).reverse)

/-- The guard `if not SELLER_ID or not str(SELLER_ID).strip()`. -/
def seller_id_missing (sellerId : Option String) : Bool :=
  match sellerId with
  | none => true
  | some s => s == "" || py_strip s == ""

/-- The body actually consulted:
`data = r.json() if r.headers.get("Content-Type", "").startswith("application/json") else {}`. -/
def login_data (resp : LoginResp) : LoginBody :=
  if resp.ctJson then resp.body else {}

/-- The stored expiry after a successful login: the parsed `valid_thru`
timestamp if present and parseable, else `now + 1800`. -/
def login_expiry (parse : String → Option ℚ) (now : ℚ) (resp : LoginResp) : ℚ :=
  match (login_data resp).valid_thru with
  | some s =>
    match parse s with
    | some t => t
    | none => now + 1800
  | none => now + 1800

/-- Function `_ensure_api_token(force_refresh)` from bot.py.  `resp` is the response
the login endpoint would return if the request is sent; the signed payload
(sha256 over key and timestamp) is part of that request and does not affect
the control flow modelled here. -/
def _ensure_api_token (parse : String → Option ℚ) (sellerId apiKey : Option String)
    (now : ℚ) (force : Bool) (st : AuthSt) (resp : LoginResp) : EnsureOut :=
  if seller_id_missing sellerId then
    { login_attempted := false, st := st, err := some "Не задан SELLER_ID" }
  else if ¬ strTruthy apiKey then
    { login_attempted := false, st := st, err := some "Не задан API ключ (GGSEL_API_KEY)" }
  else if strTruthy st.token = true ∧ force = false ∧ 30 < st.expiresAt - now then
    { login_attempted := false, st := st, err := none }
  else if resp.status ≠ 200 then
    { login_attempted := true, st := st,
      err := some ("apilogin HTTP " ++ toString resp.status ++ ": " ++ resp.text.take 160) }
  else if strTruthy (login_data resp).token then
    { login_attempted := true,
      st := { token := some ((login_data resp).token.getD ""),
              expiresAt := login_expiry parse now resp },
      err := none }
  else
    { login_attempted := true, st := st,
      err := some ("apilogin вернул ошибку: " ++
        pyOrStrD (login_data resp).desc (pyOrStrD (login_data resp).retdesc "—")) }

deriving instance DecidableEq for Except

/-- Observable outcome of `_request_json`: how many forced token refreshes
(`_ensure_api_token(force_refresh=True)`) ran, how many GET requests were
sent, and the result (status on success, raised message on error). -/
structure ReqOutcome where
  forced_refreshes : Nat
  get_attempts : Nat
  result : Except String Nat
deriving DecidableEq

/-- The substitution re.sub of token=[^&]+ by token=*** applied to a request URL
whose query string carries the token parameter: the token value (when
non-empty) is replaced by three asterisks. -/
def redacted_url (url tokenParam : String) : String :=
  if tokenParam = "" then url ++ "?token=" else url ++ "?token=***"

/-- The `_retry=False` tail call of `_request_json`: one GET, no further
refresh or retry on 401. -/
def _request_json_no_retry (statuses : Nat → Nat) (attempt : Nat)
    (url tokenParam : String) (refreshes : Nat) : ReqOutcome :=
  if statuses attempt = 401 then
    { forced_refreshes := refreshes, get_attempts := attempt + 1,
      result := .error ("GGSEL API 401 Unauthorized: " ++ redacted_url url tokenParam ++
        ". Проверьте SELLER_ID и API ключ.") }
  else if 400 ≤ statuses attempt then
    { forced_refreshes := refreshes, get_attempts := attempt + 1,
      result := .error ("HTTP " ++ toString (statuses attempt)) }
  else
    { forced_refreshes := refreshes, get_attempts := attempt + 1,
      result := .ok (statuses attempt) }

/-- Function `_request_json(url, params, ...)` from bot.py, with `statuses k` the HTTP
status the upstream returns to the k-th GET of this call.  `tokenParam` is
`params["token"]`; the retry re-sends the same params (the token injection is
skipped because the key is already present), so both attempts carry the same
token parameter.  Raised `requests` errors for non-2xx statuses are modelled
by `raise_for_status`. -/
def _request_json (statuses : Nat → Nat) (url tokenParam : String) : ReqOutcome :=
  if statuses 0 = 401 then
    _request_json_no_retry statuses 1 url tokenParam 1
  else if 400 ≤ statuses 0 then
    { forced_refreshes := 0, get_attempts := 1,
      result := .error ("HTTP " ++ toString (statuses 0)) }
  else
    { forced_refreshes := 0, get_attempts := 1, result := .ok (statuses 0) }

/-! ### Concrete instances used by witnesses and counterexamples -/

/-- A parse function under which no timestamp string parses (the parse is
never reached in the scenarios below, or always raises). -/
def parse_none : String → Option ℚ := fun _ => none

/-- A parse function reading the raw numeric epochs 1 and 2 (enough to
exercise the latest-timestamp rule on concrete inputs). -/
def parse_num : String → Option ℚ :=
  fun s => if s = "1" then some 1 else if s = "2" then some 2 else none

/-- A buyer message that is not deleted and carries no timestamp fields:
a selection candidate with unparseable written-at. -/
def cand_msg : Msg := { buyer := some 1, deleted := some 0, message := some "hi" }

/-- Two candidate messages with parseable timestamps 1 and 2. -/
def msg_t1 : Msg := { buyer := some 1, deleted := some 0, date_written := some "1" }

def msg_t2 : Msg := { buyer := some 1, deleted := some 0, date_written := some "2" }

/-- A non-counterparty (seller) message. -/
def seller_msg : Msg := { buyer := some 0, message := some "seller reply" }

/-- A deleted buyer message. -/
def deleted_msg : Msg := { buyer := some 1, deleted := some 1, message := some "gone" }

/-- A minimal conversation summary with id 7. -/
def chat7 : ChatItem := { id_i := some 7, cnt_new := some 2, last_message := some "snap" }

/-- A message fetch that always raises. -/
def fetch_fail : Int → Nat → Option (List Msg) := fun _ _ => none

/-- A message fetch returning only a deleted buyer message. -/
def fetch_deleted : Int → Nat → Option (List Msg) := fun _ _ => some [deleted_msg]

/-- A message fetch returning a seller message followed by an
unparseable-timestamp buyer message. -/
def fetch_mixed : Int → Nat → Option (List Msg) := fun _ _ => some [seller_msg, cand_msg]

/-- A sale stub with invoice id 1. -/
def sale1 : SaleStub := { invoice_id := some 1 }

/-- Purchase info whose status says paid but whose date_pay is absent. -/
def info_status_paid : Int → PurchaseInfo := fun _ => { status := some "paid" }

/-- Purchase info with a payment date. -/
def info_paid : Int → PurchaseInfo :=
  fun _ => { date_pay := some "2024-01-01", amount := some 5, name := some "item" }

/-- Three unread conversations with pairwise distinct composite keys. -/
def entry1 : Entry := { chat := { id_i := some 1, cnt_new := some 2 }, message := none }

def entry2 : Entry := { chat := { id_i := some 2, cnt_new := some 1 }, message := none }

def entry3 : Entry := { chat := { id_i := some 3 }, message := some { id := some 9 } }

/-- An order dictionary with every key absent. -/
def empty_order : OrderD := {}

/-- Two orders with distinct keys, as built by `get_recent_orders`. -/
def order5 : OrderD := { number := some 5, status := some "paid" }

def order6 : OrderD := { number := some 6, status := some "paid" }

/-- A bot state with one already-seen message key and one seen order key for
chat 1. -/
def bot_st : BotData :=
  { seen_keys := fun c => if c = 1 then {"1:2"} else ∅,
    seen_orders := fun c => if c = 1 then {some 5} else ∅ }

/-- Upstream GET statuses: first 401 then 200. -/
def stat_401_200 : Nat → Nat := fun n => if n = 0 then 401 else 200

/-- Upstream GET statuses: always 401. -/
def stat_401 : Nat → Nat := fun _ => 401

/-- Upstream GET statuses: always 200. -/
def stat_200 : Nat → Nat := fun _ => 200

/-- A stored fresh token (expires at 100). -/
def auth_fresh : AuthSt := { token := some "tok", expiresAt := 100 }

/-- A stored stale token (expires at 10). -/
def auth_stale : AuthSt := { token := some "old", expiresAt := 10 }

/-- A successful login response. -/
def login_ok : LoginResp :=
  { status := 200, ctJson := true, body := { token := some "fresh" } }

/-- A 200 login response whose JSON body has no token field. -/
def login_no_token : LoginResp :=
  { status := 200, ctJson := true, body := { desc := some "bad sign" } }

/-! ### Helper lemmas -/

theorem format_alert_ne_empty (e : Entry) : format_alert e ≠ "" := by
  intro h
  have hl := congrArg String.length h
  have h0 : 0 < ("💬 Новое сообщение от <b>" : String).length := by decide
  have he : ("" : String).length = 0 := rfl
  simp only [format_alert, String.length_append, he] at hl
  omega

theorem format_order_alert_ne_empty (o : OrderD) : format_order_alert o ≠ "" := by
  intro h
  have hl := congrArg String.length h
  have h0 : 0 < ("🧾 Новый заказ №<b>" : String).length := by decide
  have he : ("" : String).length = 0 := rfl
  simp only [format_order_alert, String.length_append, he] at hl
  omega

theorem check_step_subset (acc : List String × Finset String) (e : Entry) :
    acc.2 ⊆ (check_step acc e).2 := by
  rw [check_step]
  split_ifs with h1 h2
  · exact Finset.Subset.refl _
  · exact Finset.Subset.refl _
  · exact Finset.subset_insert _ _

theorem check_fold_subset (es : List Entry) (acc : List String × Finset String) :
    acc.2 ⊆ (es.foldl check_step acc).2 := by
  induction es generalizing acc with
  | nil => exact Finset.Subset.refl _
  | cons a es ih => exact (check_step_subset acc a).trans (ih _)

theorem check_step_key_mem (acc : List String × Finset String) (e : Entry) :
    entry_key e ∈ (check_step acc e).2 := by
  rw [check_step, if_neg (format_alert_ne_empty e)]
  by_cases h : entry_key e ∈ acc.2
  · rw [if_pos h]; exact h
  · rw [if_neg h]; exact Finset.mem_insert_self _ _

theorem check_fold_keys_mem (es : List Entry) (acc : List String × Finset String) :
    ∀ e ∈ es, entry_key e ∈ (es.foldl check_step acc).2 := by
  induction es generalizing acc with
  | nil => intro e he; cases he
  | cons a es ih =>
    intro e he
    rcases List.mem_cons.mp he with h | h
    · subst h
      exact check_fold_subset es (check_step acc e) (check_step_key_mem acc e)
    · exact ih (check_step acc a) e h

theorem check_fold_skip (es : List Entry) (acc : List String × Finset String)
    (h : ∀ e ∈ es, entry_key e ∈ acc.2) : es.foldl check_step acc = acc := by
  induction es generalizing acc with
  | nil => rfl
  | cons a es ih =>
    have hstep : check_step acc a = acc := by
      rw [check_step, if_neg (format_alert_ne_empty a),
        if_pos (h a (List.mem_cons_self a es))]
    rw [List.foldl_cons, hstep]
    exact ih acc (fun e he => h e (List.mem_cons_of_mem a he))

theorem check_key_step_subset (acc : List String × Finset String) (e : Entry) :
    acc.2 ⊆ (check_key_step acc e).2 := by
  rw [check_key_step]
  split_ifs with h1 h2
  · exact Finset.Subset.refl _
  · exact Finset.Subset.refl _
  · exact Finset.subset_insert _ _

theorem check_key_fold_fresh (seen0 : Finset String) (es : List Entry) :
    ∀ acc : List String × Finset String, (∀ k ∈ acc.1, k ∉ seen0) → seen0 ⊆ acc.2 →
      ∀ k ∈ (es.foldl check_key_step acc).1, k ∉ seen0 := by
  induction es with
  | nil => intro acc h1 _ k hk; exact h1 k hk
  | cons a es ih =>
    intro acc h1 h2 k hk
    refine ih (check_key_step acc a) ?_ (h2.trans (check_key_step_subset acc a)) k hk
    intro k' hk'
    rw [check_key_step] at hk'
    split_ifs at hk' with hA hB
    · exact h1 k' hk'
    · exact h1 k' hk'
    · rcases List.mem_append.mp hk' with h | h
      · exact h1 k' h
      · rw [List.mem_singleton] at h
        subst h
        exact fun hmem => hB (h2 hmem)

theorem check_fold_lengths (es : List Entry) :
    ∀ (l1 l2 : List String) (s : Finset String), l1.length = l2.length →
      (es.foldl check_step (l1, s)).1.length = (es.foldl check_key_step (l2, s)).1.length ∧
      (es.foldl check_step (l1, s)).2 = (es.foldl check_key_step (l2, s)).2 := by
  induction es with
  | nil => intro l1 l2 s h; exact ⟨h, rfl⟩
  | cons a es ih =>
    intro l1 l2 s h
    rw [List.foldl_cons, List.foldl_cons, check_step, check_key_step,
      if_neg (format_alert_ne_empty a), if_neg (format_alert_ne_empty a)]
    by_cases hm : entry_key a ∈ s
    · rw [if_pos hm, if_pos hm]
      exact ih l1 l2 s h
    · rw [if_neg hm, if_neg hm]
      exact ih _ _ _ (by simp [h])

theorem orders_step_subset (acc : List String × Finset (Option Int)) (o : OrderD) :
    acc.2 ⊆ (orders_step acc o).2 := by
  rw [orders_step]
  split_ifs with h1
  · exact Finset.Subset.refl _
  · exact Finset.subset_insert _ _

theorem orders_fold_subset (os : List OrderD) (acc : List String × Finset (Option Int)) :
    acc.2 ⊆ (os.foldl orders_step acc).2 := by
  induction os generalizing acc with
  | nil => exact Finset.Subset.refl _
  | cons a os ih => exact (orders_step_subset acc a).trans (ih _)

theorem orders_step_key_mem (acc : List String × Finset (Option Int)) (o : OrderD) :
    order_key o ∈ (orders_step acc o).2 := by
  rw [orders_step]
  by_cases h : order_key o ∈ acc.2
  · rw [if_pos h]; exact h
  · rw [if_neg h]; exact Finset.mem_insert_self _ _

theorem orders_fold_keys_mem (os : List OrderD) (acc : List String × Finset (Option Int)) :
    ∀ o ∈ os, order_key o ∈ (os.foldl orders_step acc).2 := by
  induction os generalizing acc with
  | nil => intro o ho; cases ho
  | cons a os ih =>
    intro o ho
    rcases List.mem_cons.mp ho with h | h
    · subst h
      exact orders_fold_subset os (orders_step acc o) (orders_step_key_mem acc o)
    · exact ih (orders_step acc a) o h

theorem orders_fold_skip (os : List OrderD) (acc : List String × Finset (Option Int))
    (h : ∀ o ∈ os, order_key o ∈ acc.2) : os.foldl orders_step acc = acc := by
  induction os generalizing acc with
  | nil => rfl
  | cons a os ih =>
    have hstep : orders_step acc a = acc := by
      rw [orders_step, if_pos (h a (List.mem_cons_self a os))]
    rw [List.foldl_cons, hstep]
    exact ih acc (fun o ho => h o (List.mem_cons_of_mem a ho))

theorem orders_key_step_subset (acc : List (Option Int) × Finset (Option Int)) (o : OrderD) :
    acc.2 ⊆ (orders_key_step acc o).2 := by
  rw [orders_key_step]
  split_ifs with h1
  · exact Finset.Subset.refl _
  · exact Finset.subset_insert _ _

theorem orders_key_fold_fresh (seen0 : Finset (Option Int)) (os : List OrderD) :
    ∀ acc : List (Option Int) × Finset (Option Int), (∀ k ∈ acc.1, k ∉ seen0) →
      seen0 ⊆ acc.2 → ∀ k ∈ (os.foldl orders_key_step acc).1, k ∉ seen0 := by
  induction os with
  | nil => intro acc h1 _ k hk; exact h1 k hk
  | cons a os ih =>
    intro acc h1 h2 k hk
    refine ih (orders_key_step acc a) ?_ (h2.trans (orders_key_step_subset acc a)) k hk
    intro k' hk'
    rw [orders_key_step] at hk'
    split_ifs at hk' with hA
    · exact h1 k' hk'
    · rcases List.mem_append.mp hk' with h | h
      · exact h1 k' h
      · rw [List.mem_singleton] at h
        subst h
        exact fun hmem => hA (h2 hmem)

theorem orders_fold_lengths (os : List OrderD) :
    ∀ (l1 : List String) (l2 : List (Option Int)) (s : Finset (Option Int)),
      l1.length = l2.length →
      (os.foldl orders_step (l1, s)).1.length = (os.foldl orders_key_step (l2, s)).1.length ∧
      (os.foldl orders_step (l1, s)).2 = (os.foldl orders_key_step (l2, s)).2 := by
  induction os with
  | nil => intro l1 l2 s h; exact ⟨h, rfl⟩
  | cons a os ih =>
    intro l1 l2 s h
    rw [List.foldl_cons, List.foldl_cons, orders_step, orders_key_step]
    by_cases hm : order_key a ∈ s
    · rw [if_pos hm, if_pos hm]
      exact ih l1 l2 s h
    · rw [if_neg hm, if_neg hm]
      exact ih _ _ _ (by simp [h])

theorem manual_fold_map (es : List Entry) :
    ∀ acc : List String, es.foldl manual_alert_step acc = acc ++ es.map format_alert := by
  induction es with
  | nil => intro acc; simp
  | cons a es ih =>
    intro acc
    rw [List.foldl_cons, manual_alert_step, if_neg (format_alert_ne_empty a), List.map_cons, ih]
    simp

theorem sel_fold_candidate (parse : String → Option ℚ) (es : List Msg) :
    ∀ acc : Option Msg × Option ℚ,
      (∀ m, acc.1 = some m → m.buyer.getD 0 = 1 ∧ m.deleted.getD 0 ≠ 1) →
      ∀ m, (es.foldl (sel_step parse) acc).1 = some m →
        m.buyer.getD 0 = 1 ∧ m.deleted.getD 0 ≠ 1 := by
  induction es with
  | nil => intro acc h m hm; exact h m hm
  | cons a es ih =>
    intro acc h
    refine ih (sel_step parse acc a) ?_
    intro m hm
    rw [sel_step] at hm
    split_ifs at hm with h1 h2
    · exact h m hm
    · push_neg at h1
      cases hm
      exact h1
    · exact h m hm

theorem sel_fold_unparsed (parse : String → Option ℚ) (es : List Msg)
    (h : ∀ m ∈ es, m.buyer.getD 0 = 1 → m.deleted.getD 0 ≠ 1 →
      _to_ts parse (msg_ts_src m) = none) :
    ∀ acc : Option Msg × Option ℚ, es.foldl (sel_step parse) acc = acc := by
  induction es with
  | nil => intro acc; rfl
  | cons a es ih =>
    intro acc
    have hstep : sel_step parse acc a = acc := by
      rw [sel_step]
      by_cases hc : ¬(a.buyer.getD 0 = 1) ∨ (a.deleted.getD 0 = 1)
      · rw [if_pos hc]
      · rw [if_neg hc]
        push_neg at hc
        rw [h a (List.mem_cons_self a es) hc.1 hc.2]
        simp [tsGt]
    rw [List.foldl_cons, hstep]
    exact ih (fun m hm => h m (List.mem_cons_of_mem a hm)) acc

theorem sel_two_later_wins (parse : String → Option ℚ) (m1 m2 : Msg) (t1 t2 : ℚ)
    (hb1 : m1.buyer.getD 0 = 1) (hd1 : m1.deleted.getD 0 ≠ 1)
    (hb2 : m2.buyer.getD 0 = 1) (hd2 : m2.deleted.getD 0 ≠ 1)
    (ht1 : _to_ts parse (msg_ts_src m1) = some t1)
    (ht2 : _to_ts parse (msg_ts_src m2) = some t2)
    (hlt : t1 < t2) :
    _select_last_unread_buyer_message parse [m1, m2] = some m2 ∧
    _select_last_unread_buyer_message parse [m2, m1] = some m2 := by
  have hc1 : ¬(¬(m1.buyer.getD 0 = 1) ∨ (m1.deleted.getD 0 = 1)) := by
    intro h
    exact h.elim (fun h' => h' hb1) hd1
  have hc2 : ¬(¬(m2.buyer.getD 0 = 1) ∨ (m2.deleted.getD 0 = 1)) := by
    intro h
    exact h.elim (fun h' => h' hb2) hd2
  have s1 : sel_step parse (none, none) m1 = (some m1, some t1) := by
    rw [sel_step, if_neg hc1, ht1]
    simp [tsGt]
  have s2 : sel_step parse (some m1, some t1) m2 = (some m2, some t2) := by
    rw [sel_step, if_neg hc2, ht2]
    simp [tsGt, hlt]
  have s0 : sel_step parse (none, none) m2 = (some m2, some t2) := by
    rw [sel_step, if_neg hc2, ht2]
    simp [tsGt]
  have s3 : sel_step parse (some m2, some t2) m1 = (some m2, some t2) := by
    rw [sel_step, if_neg hc1, ht1]
    have : tsGt (some t1) (some t2) = false := by
      simp [tsGt]
      exact le_of_lt hlt
    rw [this]
    simp
  constructor
  · rw [_select_last_unread_buyer_message]
    simp only [List.isEmpty_cons, List.foldl_cons, List.foldl_nil, s1, s2]
    rfl
  · rw [_select_last_unread_buyer_message]
    simp only [List.isEmpty_cons, List.foldl_cons, List.foldl_nil, s0, s3]
    rfl

/-! ### Claim theorems -/

/-- C4 counterexample: with a single-element (and with a two-element) thread
whose only candidate has an unparseable written-at timestamp, the selection
does not return the first-encountered candidate: it returns no message at
all, and `get_unread` then attaches the first fetched message, here a
non-counterparty one — so the first-encountered candidate does not win. -/
theorem spec_c4_counterexample :
    (cand_msg.buyer.getD 0 = 1 ∧ cand_msg.deleted.getD 0 ≠ 1) ∧
    _select_last_unread_buyer_message parse_none [cand_msg] = none ∧
    _select_last_unread_buyer_message parse_none [seller_msg, cand_msg] = none ∧
    (get_unread parse_none fetch_mixed [chat7]).map Entry.message = [some seller_msg] :=
  ⟨by decide, by decide, by decide, by decide⟩

/-- C4 (amended): among non-deleted counterparty messages the selection picks
the one with the latest parsed written-at timestamp — for two such messages
with parseable timestamps t1 < t2 it selects the t2 message in either input
order — but when every candidate timestamp is unparseable (compared as
negative infinity) no candidate is selected: the function returns none and
the caller falls back to the first fetched message. -/
theorem spec_c4 : ∀ (parse : String → Option ℚ) (m1 m2 : Msg) (t1 t2 : ℚ),
    m1.buyer.getD 0 = 1 → m1.deleted.getD 0 ≠ 1 →
    m2.buyer.getD 0 = 1 → m2.deleted.getD 0 ≠ 1 →
    _to_ts parse (msg_ts_src m1) = some t1 →
    _to_ts parse (msg_ts_src m2) = some t2 → t1 < t2 →
    (_select_last_unread_buyer_message parse [m1, m2] = some m2 ∧
     _select_last_unread_buyer_message parse [m2, m1] = some m2) ∧
    (∀ msgs : List Msg,
      (∀ m ∈ msgs, m.buyer.getD 0 = 1 → m.deleted.getD 0 ≠ 1 →
        _to_ts parse (msg_ts_src m) = none) →
      _select_last_unread_buyer_message parse msgs = none) := by
  intro parse m1 m2 t1 t2 hb1 hd1 hb2 hd2 ht1 ht2 hlt
  constructor
  · exact sel_two_later_wins parse m1 m2 t1 t2 hb1 hd1 hb2 hd2 ht1 ht2 hlt
  · intro msgs h
    rcases msgs with _ | ⟨a, as⟩
    · rfl
    · rw [_select_last_unread_buyer_message]
      simp only [List.isEmpty_cons, Bool.false_eq_true, if_false]
      rw [sel_fold_unparsed parse (a :: as) h]

/-- C4 witness: on the concrete thread with timestamps 1 < 2 the selection
returns the timestamp-2 message. -/
theorem spec_c4_witness :
    _to_ts parse_num (msg_ts_src msg_t1) = some 1 ∧ (1 : ℚ) < 2 ∧
    _select_last_unread_buyer_message parse_num [msg_t1, msg_t2] = some msg_t2 :=
  ⟨rfl, by norm_num,
    ((spec_c4 parse_num msg_t1 msg_t2 1 2 (by decide) (by decide) (by decide) (by decide)
      rfl rfl (by norm_num)).1).1⟩

/-- C6 counterexample: a conversation whose only fetched message is a deleted
buyer message gets that deleted record attached as its representative message
by the fallback of `get_unread`. -/
theorem spec_c6_counterexample :
    (get_unread parse_none fetch_deleted [chat7]).map Entry.message = [some deleted_msg] ∧
    deleted_msg.deleted.getD 0 = 1 :=
  ⟨by decide, by decide⟩

/-- C6 (amended): `_select_last_unread_buyer_message` never returns a deleted
or non-counterparty record; however, when it selects no candidate,
`get_unread` falls back to the first fetched message, which may be deleted or
from the seller. -/
theorem spec_c6 : ∀ (parse : String → Option ℚ) (msgs : List Msg) (m : Msg),
    _select_last_unread_buyer_message parse msgs = some m →
    m.buyer.getD 0 = 1 ∧ m.deleted.getD 0 ≠ 1 := by
  intro parse msgs m h
  rcases msgs with _ | ⟨a, as⟩
  · exact Option.noConfusion h
  · rw [_select_last_unread_buyer_message] at h
    simp only [List.isEmpty_cons, Bool.false_eq_true, if_false] at h
    exact sel_fold_candidate parse (a :: as) (none, none)
      (fun m' hm' => Option.noConfusion hm') m h

/-- C6 witness: the selection on a single parseable candidate returns it, and
that record is indeed a non-deleted buyer message. -/
theorem spec_c6_witness :
    msg_t1.buyer.getD 0 = 1 ∧ msg_t1.deleted.getD 0 ≠ 1 :=
  spec_c6 parse_num [msg_t1] msg_t1 rfl

theorem sale_paid_order_eq_some (info : Int → PurchaseInfo) (s : SaleStub) (o : OrderD) :
    sale_paid_order info s = some o ↔
      ∃ iid, s.invoice_id = some iid ∧ strTruthy (info iid).date_pay = true ∧
        o = mk_paid_order s (info iid) iid := by
  cases h : s.invoice_id with
  | none => simp [sale_paid_order, h]
  | some iid =>
    by_cases hp : strTruthy (info iid).date_pay = true
    · simp only [sale_paid_order, h, hp, if_true]
      constructor
      · intro he
        injection he with he
        exact ⟨iid, rfl, hp, he.symm⟩
      · rintro ⟨iid', hi, _, ho⟩
        injection hi with hi
        subst hi
        rw [ho]
    · simp only [sale_paid_order, h]
      rw [if_neg hp]
      constructor
      · intro he
        exact Option.noConfusion he
      · rintro ⟨iid', hi, ht, _⟩
        injection hi with hi
        subst hi
        exact absurd ht hp

/-- C5 counterexample: a fetched sale whose purchase info carries
status "paid" but no payment date is excluded from the output of
`get_recent_orders`, although the claim calls it confirmed paid. -/
theorem spec_c5_counterexample :
    (info_status_paid 1).status = some "paid" ∧
    get_recent_orders info_status_paid [sale1] = [] :=
  ⟨rfl, by decide⟩

/-- C5 (amended): a fetched sale contributes an order to the output of
`get_recent_orders` if and only if its invoice id is present and the
purchase info's payment-date field is truthy (present and non-empty); the
status field is never consulted, so in particular every order lacking a
payment-confirmation date is excluded. -/
theorem spec_c5 : ∀ (info : Int → PurchaseInfo) (sales : List SaleStub) (o : OrderD),
    o ∈ get_recent_orders info sales ↔
      ∃ s ∈ sales, ∃ iid, s.invoice_id = some iid ∧
        strTruthy (info iid).date_pay = true ∧ o = mk_paid_order s (info iid) iid := by
  intro info sales o
  rw [get_recent_orders, List.mem_filterMap]
  constructor
  · rintro ⟨s, hs, hopt⟩
    rcases (sale_paid_order_eq_some info s o).mp hopt with ⟨iid, h1, h2, h3⟩
    exact ⟨s, hs, iid, h1, h2, h3⟩
  · rintro ⟨s, hs, iid, h1, h2, h3⟩
    exact ⟨s, hs, (sale_paid_order_eq_some info s o).mpr ⟨iid, h1, h2, h3⟩⟩

/-- C5 witness: a sale with a payment date produces exactly its order record. -/
theorem spec_c5_witness :
    mk_paid_order sale1 (info_paid 1) 1 ∈ get_recent_orders info_paid [sale1] :=
  (spec_c5 info_paid [sale1] (mk_paid_order sale1 (info_paid 1) 1)).mpr
    ⟨sale1, List.mem_singleton.mpr rfl, 1, rfl, by decide, rfl⟩

/-- C1: for both categories, the per-session seen-set only grows across an
automatic check; a key already in the seen-set is never among the keys for
which an alert is emitted (and the emitted alerts are in one-to-one
correspondence with the emitted keys); re-running the same check on the same
upstream data emits nothing; and a first check on an empty seen-set with
three fetched unread conversations with distinct composite keys emits three
alerts, leaves a seen-set of size 3, and an identical second check emits
zero alerts. -/
theorem spec_c1 : ∀ (seen : Finset String) (entries : List Entry)
    (oseen : Finset (Option Int)) (orders : List OrderD) (e1 e2 e3 : Entry),
    entry_key e1 ≠ entry_key e2 → entry_key e1 ≠ entry_key e3 →
    entry_key e2 ≠ entry_key e3 →
    (seen ⊆ (_auto_check_once seen entries).2) ∧
    (∀ k ∈ seen, k ∉ auto_check_emitted_keys seen entries) ∧
    ((_auto_check_once seen entries).1.length =
      (auto_check_emitted_keys seen entries).length) ∧
    ((_auto_check_once (_auto_check_once seen entries).2 entries).1 = []) ∧
    (oseen ⊆ (_auto_orders_once oseen orders).2) ∧
    (∀ k ∈ oseen, k ∉ auto_orders_emitted_keys oseen orders) ∧
    ((_auto_orders_once oseen orders).1.length =
      (auto_orders_emitted_keys oseen orders).length) ∧
    ((_auto_orders_once (_auto_orders_once oseen orders).2 orders).1 = []) ∧
    ((_auto_check_once ∅ [e1, e2, e3]).1.length = 3) ∧
    ((_auto_check_once ∅ [e1, e2, e3]).2.card = 3) ∧
    ((_auto_check_once (_auto_check_once ∅ [e1, e2, e3]).2 [e1, e2, e3]).1 = []) := by
  intro seen entries oseen orders e1 e2 e3 h12 h13 h23
  have hm2 : entry_key e2 ∉ ({entry_key e1} : Finset String) := by
    rw [Finset.mem_singleton]
    exact fun h => h12 h.symm
  have hm3 : entry_key e3 ∉ insert (entry_key e2) ({entry_key e1} : Finset String) := by
    rw [Finset.mem_insert, Finset.mem_singleton]
    rintro (h | h)
    · exact h23 h.symm
    · exact h13 h.symm
  have step1 : check_step ([], ∅) e1 = ([format_alert e1], {entry_key e1}) := by
    rw [check_step, if_neg (format_alert_ne_empty e1), if_neg (Finset.not_mem_empty _)]
    rfl
  have step2 : check_step ([format_alert e1], {entry_key e1}) e2 =
      ([format_alert e1, format_alert e2],
        insert (entry_key e2) {entry_key e1}) := by
    rw [check_step, if_neg (format_alert_ne_empty e2), if_neg hm2]
    rfl
  have step3 : check_step ([format_alert e1, format_alert e2],
        insert (entry_key e2) {entry_key e1}) e3 =
      ([format_alert e1, format_alert e2, format_alert e3],
        insert (entry_key e3) (insert (entry_key e2) {entry_key e1})) := by
    rw [check_step, if_neg (format_alert_ne_empty e3), if_neg hm3]
    rfl
  have run1 : _auto_check_once ∅ [e1, e2, e3] =
      ([format_alert e1, format_alert e2, format_alert e3],
        insert (entry_key e3) (insert (entry_key e2) {entry_key e1})) := by
    rw [_auto_check_once, List.foldl_cons, step1, List.foldl_cons, step2,
      List.foldl_cons, step3, List.foldl_nil]
  have run1a : (_auto_check_once ∅ [e1, e2, e3]).1 =
      [format_alert e1, format_alert e2, format_alert e3] := by
    rw [run1]
  have run1b : (_auto_check_once ∅ [e1, e2, e3]).2 =
      insert (entry_key e3) (insert (entry_key e2) {entry_key e1}) := by
    rw [run1]
  refine ⟨?_, ?_, ?_, ?_, ?_, ?_, ?_, ?_, ?_, ?_, ?_⟩
  · exact check_fold_subset entries ([], seen)
  · intro k hk hmem
    exact check_key_fold_fresh seen entries ([], seen)
      (fun k' hk' => absurd hk' (List.not_mem_nil k'))
      (Finset.Subset.refl seen) k hmem hk
  · exact (check_fold_lengths entries [] [] seen rfl).1
  · have hmem : ∀ e ∈ entries, entry_key e ∈ (_auto_check_once seen entries).2 :=
      fun e he => check_fold_keys_mem entries ([], seen) e he
    rw [_auto_check_once, check_fold_skip entries ([], (_auto_check_once seen entries).2) hmem]
  · rw [_auto_orders_once]
    split_ifs with hE
    · exact Finset.Subset.refl oseen
    · exact orders_fold_subset orders ([], oseen)
  · intro k hk hmem
    rw [auto_orders_emitted_keys] at hmem
    split_ifs at hmem with hE
    · exact absurd hmem (List.not_mem_nil k)
    · exact orders_key_fold_fresh oseen orders ([], oseen)
        (fun k' hk' => absurd hk' (List.not_mem_nil k'))
        (Finset.Subset.refl oseen) k hmem hk
  · rw [_auto_orders_once, auto_orders_emitted_keys]
    split_ifs with hE
    · rfl
    · exact (orders_fold_lengths orders [] [] oseen rfl).1
  · by_cases hE : orders.isEmpty
    · have h1 : _auto_orders_once oseen orders = ([], oseen) := by
        rw [_auto_orders_once, if_pos hE]
      rw [h1, _auto_orders_once, if_pos hE]
    · have h1 : _auto_orders_once oseen orders = orders.foldl orders_step ([], oseen) := by
        rw [_auto_orders_once, if_neg hE]
      have hmem : ∀ o ∈ orders,
          order_key o ∈ (([] : List String), (_auto_orders_once oseen orders).2).2 := by
        intro o ho
        show order_key o ∈ (_auto_orders_once oseen orders).2
        rw [h1]
        exact orders_fold_keys_mem orders ([], oseen) o ho
      have h2 : _auto_orders_once (_auto_orders_once oseen orders).2 orders =
          orders.foldl orders_step ([], (_auto_orders_once oseen orders).2) := by
        rw [_auto_orders_once, if_neg hE]
      rw [h2, orders_fold_skip orders _ hmem]
  · rw [run1a]
    rfl
  · rw [run1b, Finset.card_insert_of_not_mem hm3, Finset.card_insert_of_not_mem hm2,
      Finset.card_singleton]
  · have hmem : ∀ e ∈ [e1, e2, e3],
        entry_key e ∈ insert (entry_key e3) (insert (entry_key e2)
          ({entry_key e1} : Finset String)) := by
      intro e he
      rcases List.mem_cons.mp he with rfl | he
      · exact Finset.mem_insert_of_mem (Finset.mem_insert_of_mem (Finset.mem_singleton_self _))
      rcases List.mem_cons.mp he with rfl | he
      · exact Finset.mem_insert_of_mem (Finset.mem_insert_self _ _)
      rcases List.mem_cons.mp he with rfl | he
      · exact Finset.mem_insert_self _ _
      · cases he
    have hmem2 : ∀ e ∈ [e1, e2, e3],
        entry_key e ∈ (([] : List String),
          insert (entry_key e3) (insert (entry_key e2)
            ({entry_key e1} : Finset String))).2 := hmem
    have h2 : _auto_check_once (_auto_check_once ∅ [e1, e2, e3]).2 [e1, e2, e3] =
        List.foldl check_step
          ([], insert (entry_key e3) (insert (entry_key e2) {entry_key e1})) [e1, e2, e3] := by
      rw [_auto_check_once, run1b]
    rw [h2, check_fold_skip [e1, e2, e3] _ hmem2]

/-- C1 witness: the three-conversation scenario at concrete entries with
distinct keys. -/
theorem spec_c1_witness :
    entry_key entry1 ≠ entry_key entry2 ∧
    (_auto_check_once ∅ [entry1, entry2, entry3]).1.length = 3 ∧
    (_auto_check_once (_auto_check_once ∅ [entry1, entry2, entry3]).2
      [entry1, entry2, entry3]).1 = [] := by
  have h := spec_c1 {"1:2"} [entry1] {some 5} [order5] entry1 entry2 entry3
    (by decide) (by decide) (by decide)
  exact ⟨by decide, h.2.2.2.2.2.2.2.2.1, h.2.2.2.2.2.2.2.2.2.2⟩

/-- C10: the on-demand message check leaves the bot state untouched and
replies with an alert for every fetched unread conversation, while the
on-demand order check leaves the message seen-map untouched but performs on
the per-chat order seen-set exactly the read-and-insert update of the
scheduled order check (and leaves every other chat's set unchanged). -/
theorem spec_c10 : ∀ (st : BotData) (entries : List Entry) (chat_id : Int)
    (orders : List OrderD),
    ((manual_check st entries).2 = st) ∧
    ((manual_check st entries).1 = entries.map format_alert) ∧
    ((manual_check_orders st chat_id orders).2.seen_keys = st.seen_keys) ∧
    ((manual_check_orders st chat_id orders).2.seen_orders chat_id =
      (auto_orders_once_state st chat_id orders).2.seen_orders chat_id) ∧
    ((manual_check_orders st chat_id orders).1 =
      (auto_orders_once_state st chat_id orders).1) ∧
    (∀ c, c ≠ chat_id →
      (manual_check_orders st chat_id orders).2.seen_orders c = st.seen_orders c) := by
  intro st entries chat_id orders
  refine ⟨rfl, ?_, ?_, ?_, ?_, ?_⟩
  · rw [show (manual_check st entries).1 = entries.foldl manual_alert_step [] from rfl,
      manual_fold_map entries [], List.nil_append]
  · by_cases hE : orders.isEmpty
    · rw [manual_check_orders, if_pos hE]
    · rw [manual_check_orders, if_neg hE]
  · by_cases hE : orders.isEmpty
    · rw [manual_check_orders, if_pos hE, auto_orders_once_state, _auto_orders_once,
        if_pos hE]
      simp
    · rw [manual_check_orders, if_neg hE, auto_orders_once_state, _auto_orders_once,
        if_neg hE]
  · by_cases hE : orders.isEmpty
    · rw [manual_check_orders, if_pos hE, auto_orders_once_state, _auto_orders_once,
        if_pos hE]
    · rw [manual_check_orders, if_neg hE, auto_orders_once_state, _auto_orders_once,
        if_neg hE]
  · intro c hc
    by_cases hE : orders.isEmpty
    · rw [manual_check_orders, if_pos hE]
    · rw [manual_check_orders, if_neg hE]
      show (if c = chat_id then _ else st.seen_orders c) = st.seen_orders c
      rw [if_neg hc]

/-- C10 witness: the concrete bot state with chat 1, where order 5 is already
seen: the manual order check emits only the alert for order 6, inserts its
key into chat 1's order seen-set, and does not touch chat 2's set. -/
theorem spec_c10_witness :
    (manual_check bot_st [entry1]).1 = [entry1].map format_alert ∧
    (manual_check_orders bot_st 1 [order5, order6]).2.seen_orders 2 =
      bot_st.seen_orders 2 := by
  have h := spec_c10 bot_st [entry1] 1 [order5, order6]
  exact ⟨h.2.1, h.2.2.2.2.2 2 (by decide)⟩

/-- C8: every conversation in the unread-filtered fetch yields exactly one
entry of the `get_unread` result, in order; when the message fetches for a
conversation all fail, its entry carries no message, and formatting such an
entry produces exactly the synthetic alert built from the conversation
summary's unread counter and last-message snapshot. -/
theorem spec_c8 : ∀ (parse : String → Option ℚ) (fetch : Int → Nat → Option (List Msg))
    (chats : List ChatItem),
    ((get_unread parse fetch chats).map Entry.chat = chats) ∧
    ((∀ c n, fetch c n = none) →
      ∀ chat, get_unread parse fetch [chat] = [{ chat := chat, message := none }]) ∧
    (∀ chat, format_alert { chat := chat, message := none } = synthetic_alert chat) := by
  intro parse fetch chats
  refine ⟨?_, ?_, fun chat => rfl⟩
  · induction chats with
    | nil => rfl
    | cons c cs ih =>
      have hstep : get_unread parse fetch (c :: cs) =
          { chat := c, message := unread_entry_message parse fetch c } ::
            get_unread parse fetch cs := by
        rw [get_unread, get_unread, List.map_cons]
      rw [hstep, List.map_cons, ih]
  · intro hf chat
    have hm : unread_entry_message parse fetch chat = none := by
      cases hid : chat.id_i with
      | none => simp [unread_entry_message, hid, _select_last_unread_buyer_message]
      | some cid => simp [unread_entry_message, hid, hf, _select_last_unread_buyer_message]
    rw [get_unread, List.map_cons, List.map_nil, hm]

/-- C8 witness: a conversation whose fetches always fail still yields its one
entry, and that entry formats to the synthetic alert. -/
theorem spec_c8_witness :
    get_unread parse_none fetch_fail [chat7] = [{ chat := chat7, message := none }] ∧
    format_alert { chat := chat7, message := none } = synthetic_alert chat7 := by
  have h := spec_c8 parse_none fetch_fail [chat7]
  exact ⟨h.2.1 (fun _ _ => rfl) chat7, h.2.2 chat7⟩

/-- C9 counterexample: on an order dictionary with every key absent the
formatter does not render the amount as a dash: `order.get("amount", 0)`
makes it render as 0. -/
theorem spec_c9_counterexample :
    empty_order.amount = none ∧
    format_order_alert empty_order =
      "🧾 Новый заказ №<b>—</b>\n📦 Товар: <i>—</i>\n📧 Покупатель: <code>—</code>\n💰 Сумма: <b>0</b>\n📌 Статус: <b>—</b>\n🕒 —" ∧
    order_alert_amount empty_order ≠ "—" :=
  ⟨rfl, by decide, by decide⟩

/-- C9 (amended): both formatters are total — they always return a non-empty
string — and each absent field renders as a placeholder dash, except the
order amount, which defaults to 0 when its key is absent. -/
theorem spec_c9 : ∀ (o : OrderD) (e : Entry),
    format_alert e ≠ "" ∧ format_order_alert o ≠ "" ∧
    (o.offer_title = none → order_alert_title o = "—") ∧
    (o.buyer_email = none → order_alert_email o = "—") ∧
    (o.status = none → order_alert_status o = "—") ∧
    (o.created_at = none → order_alert_created o = "—") ∧
    (o.number = none → o.id = none → order_alert_number o = "—") ∧
    (o.amount = none → order_alert_amount o = "0") ∧
    (e.chat.email = none → alert_email e.chat = "—") ∧
    (e.chat.id_i = none → alert_conversation_id e.chat = "—") ∧
    (e.chat.product = none → alert_product_label e.chat = "—") ∧
    (e.message = none → e.chat.last_message = none → alert_dt e = "—") := by
  intro o e
  refine ⟨format_alert_ne_empty e, format_order_alert_ne_empty o,
    ?_, ?_, ?_, ?_, ?_, ?_, ?_, ?_, ?_, ?_⟩
  · intro h
    rw [order_alert_title, h]
    rfl
  · intro h
    rw [order_alert_email, h]
    rfl
  · intro h
    rw [order_alert_status, h]
    rfl
  · intro h
    rw [order_alert_created, h]
    rfl
  · intro h hid
    rw [order_alert_number, h, hid]
    rfl
  · intro h
    rw [order_alert_amount, h]
    rfl
  · intro h
    rw [alert_email, h]
    rfl
  · intro h
    rw [alert_conversation_id, h]
    rfl
  · intro h
    rw [alert_product_label, h]
  · intro hm hl
    rw [alert_dt, hm, hl]
    rfl

/-- C9 witness: on the all-absent order the title renders as a dash and the
amount as 0. -/
theorem spec_c9_witness :
    order_alert_title empty_order = "—" ∧ order_alert_amount empty_order = "0" := by
  have h := spec_c9 empty_order entry1
  exact ⟨h.2.2.1 rfl, h.2.2.2.2.2.2.2.1 rfl⟩

/-- C3: with credentials configured, forceRefresh false and a stored token,
a margin of strictly more than 30 seconds before expiry makes ensureToken
return immediately with no login request and the stored token and expiry
unchanged, while a margin of at most 30 seconds always issues a login
request. -/
theorem spec_c3 : ∀ (parse : String → Option ℚ) (sellerId apiKey : Option String)
    (now : ℚ) (st : AuthSt) (resp : LoginResp),
    seller_id_missing sellerId = false → strTruthy apiKey = true →
    strTruthy st.token = true →
    ((30 < st.expiresAt - now →
      _ensure_api_token parse sellerId apiKey now false st resp =
        { login_attempted := false, st := st, err := none }) ∧
     (st.expiresAt - now ≤ 30 →
      (_ensure_api_token parse sellerId apiKey now false st resp).login_attempted = true)) := by
  intro parse sellerId apiKey now st resp hs hk ht
  have h1 : ¬ (seller_id_missing sellerId = true) := by
    rw [hs]
    exact Bool.false_ne_true
  have h2 : ¬¬ (strTruthy apiKey = true) := not_not_intro hk
  constructor
  · intro hgt
    rw [_ensure_api_token, if_neg h1, if_neg h2, if_pos ⟨ht, rfl, hgt⟩]
  · intro hle
    have h3 : ¬ (strTruthy st.token = true ∧ false = false ∧ 30 < st.expiresAt - now) := by
      rintro ⟨-, -, hgt⟩
      exact absurd hgt (not_lt.mpr hle)
    rw [_ensure_api_token, if_neg h1, if_neg h2, if_neg h3]
    split_ifs <;> rfl

/-- C3 witness: at time 0 a token expiring at 100 is used as is, and the
outcome records no login attempt. -/
theorem spec_c3_witness :
    _ensure_api_token parse_none (some "42") (some "k") 0 false auth_fresh login_ok =
      { login_attempted := false, st := auth_fresh, err := none } :=
  (spec_c3 parse_none (some "42") (some "k") 0 auth_fresh login_ok
    (by decide) (by decide) (by decide)).1 (by norm_num [auth_fresh])

/-- C7: a 200 login response whose JSON body has no token field makes
ensureToken fail with the error message carrying the server-supplied
description, and the stored token and expiry are left untouched. -/
theorem spec_c7 : ∀ (parse : String → Option ℚ) (sellerId apiKey : Option String)
    (now : ℚ) (force : Bool) (st : AuthSt) (resp : LoginResp),
    seller_id_missing sellerId = false → strTruthy apiKey = true →
    ¬(strTruthy st.token = true ∧ force = false ∧ 30 < st.expiresAt - now) →
    resp.status = 200 → resp.ctJson = true → resp.body.token = none →
    _ensure_api_token parse sellerId apiKey now force st resp =
      { login_attempted := true, st := st,
        err := some ("apilogin вернул ошибку: " ++
          pyOrStrD resp.body.desc (pyOrStrD resp.body.retdesc "—")) } := by
  intro parse sellerId apiKey now force st resp hs hk hskip hst hcj htok
  have h1 : ¬ (seller_id_missing sellerId = true) := by
    rw [hs]
    exact Bool.false_ne_true
  have h2 : ¬¬ (strTruthy apiKey = true) := not_not_intro hk
  have h4 : ¬¬ (resp.status = 200) := not_not_intro hst
  have hd : login_data resp = resp.body := by
    rw [login_data, hcj]
    rfl
  have h5 : ¬ (strTruthy (login_data resp).token = true) := by
    rw [hd, htok]
    exact Bool.false_ne_true
  rw [_ensure_api_token, if_neg h1, if_neg h2, if_neg hskip, if_neg h4, if_neg h5, hd]

/-- C7 witness: a stale stored token, a 200 login response with no token
field and description "bad sign": the call fails with that description and
leaves the auth state unchanged. -/
theorem spec_c7_witness :
    _ensure_api_token parse_none (some "42") (some "k") 0 false auth_stale login_no_token =
      { login_attempted := true, st := auth_stale,
        err := some "apilogin вернул ошибку: bad sign" } := by
  have h := spec_c7 parse_none (some "42") (some "k") 0 false auth_stale login_no_token
    (by decide) (by decide)
    (by
      rintro ⟨-, -, h3⟩
      norm_num [auth_stale] at h3)
    rfl rfl rfl
  rw [h]
  rfl

/-- C2: a non-401 first response issues no forced refresh and exactly one GET;
a first 401 triggers exactly one forced refresh and exactly one retry (two
GETs in total), whose success status is returned; a second consecutive 401
raises with the message carrying the request URL with the token value
redacted, and no further GET is attempted. -/
theorem spec_c2 : ∀ (statuses : Nat → Nat) (url tokenParam : String),
    (statuses 0 ≠ 401 →
      (_request_json statuses url tokenParam).forced_refreshes = 0 ∧
      (_request_json statuses url tokenParam).get_attempts = 1) ∧
    (statuses 0 = 401 → statuses 1 ≠ 401 →
      (_request_json statuses url tokenParam).forced_refreshes = 1 ∧
      (_request_json statuses url tokenParam).get_attempts = 2 ∧
      (statuses 1 < 400 →
        (_request_json statuses url tokenParam).result = .ok (statuses 1))) ∧
    (statuses 0 = 401 → statuses 1 = 401 →
      _request_json statuses url tokenParam =
        { forced_refreshes := 1, get_attempts := 2,
          result := .error ("GGSEL API 401 Unauthorized: " ++
            redacted_url url tokenParam ++ ". Проверьте SELLER_ID и API ключ.") }) ∧
    (tokenParam ≠ "" → redacted_url url tokenParam = url ++ "?token=***") := by
  intro statuses url tokenParam
  refine ⟨?_, ?_, ?_, ?_⟩
  · intro h0
    rw [_request_json, if_neg h0]
    split_ifs <;> exact ⟨rfl, rfl⟩
  · intro h0 h1
    rw [_request_json, if_pos h0, _request_json_no_retry, if_neg h1]
    split_ifs with h4
    · exact ⟨rfl, rfl, fun hlt => absurd h4 (not_le.mpr hlt)⟩
    · exact ⟨rfl, rfl, fun _ => rfl⟩
  · intro h0 h1
    rw [_request_json, if_pos h0, _request_json_no_retry, if_pos h1]
  · intro ht
    rw [redacted_url, if_neg ht]

/-- C2 witness: two consecutive 401s stop after the second GET; a 401 then
200 does exactly one forced refresh; a clean 200 does none. -/
theorem spec_c2_witness :
    (_request_json stat_401 "https://u" "tok").get_attempts = 2 ∧
    (_request_json stat_401_200 "https://u" "tok").forced_refreshes = 1 ∧
    (_request_json stat_200 "https://u" "tok").forced_refreshes = 0 := by
  have hA := spec_c2 stat_401 "https://u" "tok"
  have hB := spec_c2 stat_401_200 "https://u" "tok"
  have hC := spec_c2 stat_200 "https://u" "tok"
  refine ⟨?_, (hB.2.1 rfl (by decide)).1, (hC.1 (by decide)).1⟩
  rw [hA.2.2.1 rfl rfl]
